import Mathlib

set_option maxRecDepth 10000

/-!
Verification development for the qiskit-ibm-runtime job lifecycle manager
(`qiskit_ibm_runtime/runtime_job_v2.py`) and the backend-configuration data
model (`qiskit_ibm_runtime/models/backend_configuration.py`).

Python values are shallowly embedded: strings stay strings, optional values
become `Option`, Python dicts become association lists, and raised exceptions
become `Except` / explicit outcome constructors. Python floats become the
exact rationals they denote, and every float multiplication performed by the
source is rounded back to IEEE-754 binary64 by an explicit
round-to-nearest-even model (`roundB64`), so double rounding is preserved,
not idealized away.
-/

namespace QiskitRuntime

/-! ## Job lifecycle model (`runtime_job_v2.py`) -/

/-- Python `str.upper()` restricted to the ASCII strings that job statuses
use: upper-case every character (written over the character list so that it
reduces definitionally). -/
def pyUpper (s : String) : String := ⟨s.data.map Char.toUpper⟩

/-- Python truthiness of an `Optional[str]`: `None` and `""` are falsy. -/
def pyTruthyStr : Option String → Bool
  | none => false
  | some s => s ≠ ""

/-- Python `str()` applied to an `Optional[str]` (used by f-string interpolation):
`None` renders as the string `"None"`. -/
def pyStr : Option String → String
  | none => "None"
  | some s => s

/-- The fixed table `API_TO_JOB_STATUS` from `runtime_job_v2.py`. -/
def API_TO_JOB_STATUS : List (String × String) :=
  [("QUEUED", "QUEUED"),
   ("RUNNING", "RUNNING"),
   ("COMPLETED", "DONE"),
   ("FAILED", "ERROR"),
   ("CANCELLED", "CANCELLED")]

/-- Constant `RuntimeJobV2.JOB_FINAL_STATES`. -/
def JOB_FINAL_STATES : List String := ["DONE", "CANCELLED", "ERROR"]

/-- The `state` object of a status response from the runtime API: its raw
`status` string plus the optional `reason` / `reason_code` fields. -/
structure StatusResponse where
  status : String
  reason : Option String
  reason_code : Option Int
  deriving Repr, DecidableEq

/-- `RuntimeJobV2._status_from_job_response`, as a function of the job's
recorded `_reason_code` and the API response. -/
def statusFromJobResponse (reasonCode : Option Int) (resp : StatusResponse) : String :=
  let apiStatus := pyUpper resp.status
  match API_TO_JOB_STATUS.lookup apiStatus with
  | some mapped => if mapped = "CANCELLED" ∧ reasonCode = some 1305 then "ERROR" else mapped
  | none => apiStatus

/-- The status-mapping table exactly as the specification words it (claim side,
for comparison with `statusFromJobResponse`): the five known upper-cased server
states map to their mapped states, anything else passes through unmodified, and
CANCELLED with the max-execution-time reason code 1305 is reclassified ERROR. -/
def claimedStatusMap (reasonCode : Option Int) (u : String) : String :=
  if u = "QUEUED" then "QUEUED"
  else if u = "RUNNING" then "RUNNING"
  else if u = "COMPLETED" then "DONE"
  else if u = "FAILED" then "ERROR"
  else if u = "CANCELLED" then
    (if reasonCode = some 1305 then "ERROR" else "CANCELLED")
  else u

/-- The mutable client-side fields of a `RuntimeJobV2` object that the lifecycle
operations read and write: the cached status string (initially
`"INITIALIZING"`), and the error bookkeeping fields of the base job. -/
structure JobState where
  job_id : String
  status : String
  error_message : Option String
  reason : Option String
  reason_code : Option Int
  deriving Repr, DecidableEq

/-- A freshly constructed job: `self._status = "INITIALIZING"`, error fields unset. -/
def initialJob (jobId : String) : JobState :=
  { job_id := jobId, status := "INITIALIZING", error_message := none,
    reason := none, reason_code := none }

/-- The status endpoint of the Transport Client, an external collaborator: the
response returned by the n-th status round-trip made on this job. -/
def Transport : Type := Nat → StatusResponse

/-- Modelled from the spec: `BaseRuntimeJob._set_status_and_error_message` is
declared in `base_runtime_job.py`, which is not part of the source tree under
verification. Per the spec, a `status()` call triggers exactly one round-trip
to the status endpoint unless the cached status is already terminal (terminal
states are cached forever), and on a round-trip it records the response
reason / reason code and error message together with the status mapped through
`statusFromJobResponse`. The second component counts transport round-trips. -/
def setStatusAndErrorMessage (t : Transport) (js : JobState) (rt : Nat) :
    JobState × Nat :=
  if js.status ∈ JOB_FINAL_STATES then (js, rt)
  else
    let resp := t rt
    let js1 : JobState :=
      { js with reason := resp.reason, reason_code := resp.reason_code,
                error_message := resp.reason }
    ({ js1 with status := statusFromJobResponse js1.reason_code resp }, rt + 1)

/-- `RuntimeJobV2.status`: refresh via `_set_status_and_error_message` and
return the cached status. Returns the status string, the updated job state and
the updated round-trip count. -/
def statusCall (t : Transport) (js : JobState) (rt : Nat) :
    String × JobState × Nat :=
  let (js1, rt1) := setStatusAndErrorMessage t js rt
  (js1.status, js1, rt1)

/-- `RuntimeJobV2.cancelled`: `self.status() == "CANCELLED"`. -/
def cancelledCall (t : Transport) (js : JobState) (rt : Nat) :
    Bool × JobState × Nat :=
  let (s, js1, rt1) := statusCall t js rt
  (s == "CANCELLED", js1, rt1)

/-- The typed error taxonomy raised by the lifecycle manager
(`qiskit_ibm_runtime/exceptions.py` names, as used in `runtime_job_v2.py`).
`runtimeJobTimeoutError` carries the timeout that was exceeded. -/
inductive JobError where
  | runtimeJobMaxTimeoutError (msg : Option String)
  | runtimeJobFailureError (msg : String)
  | runtimeInvalidStateError (msg : String)
  | runtimeJobTimeoutError (timeout : Option ℚ)
  | ibmRuntimeError (msg : String)
  deriving Repr, DecidableEq

/-- Modelled from the spec: `RequestsApiError` lives in `api/exceptions.py`,
which is not part of the source tree under verification. Per the spec, a
transport failure carries an upstream message and, where the service gives
one, an HTTP status code (409 for cancel conflict, 404 for missing logs). -/
structure RequestsApiError where
  message : String
  status_code : Option Int
  deriving Repr, DecidableEq

/-- Outcome of the Transport Client's cancel operation for one job. -/
inductive CancelResponse where
  | success
  | failure (ex : RequestsApiError)
  deriving Repr, DecidableEq

/-- `RuntimeJobV2.cancel`: try the transport cancel; a `RequestsApiError` with
status code 409 becomes `RuntimeInvalidStateError`, any other transport
failure becomes `IBMRuntimeError`, and on success the local status is set to
`"CANCELLED"` without a confirming poll. -/
def cancelJob (resp : CancelResponse) (js : JobState) :
    Except JobError JobState :=
  match resp with
  | .success => .ok { js with status := "CANCELLED" }
  | .failure ex =>
      if ex.status_code = some 409 then
        .error (.runtimeInvalidStateError ("Job cannot be cancelled: " ++ ex.message))
      else
        .error (.ibmRuntimeError ("Failed to cancel job: " ++ ex.message))

/-- The tail of `RuntimeJobV2.result` after `wait_for_final_state` has
completed: dispatch on the cached status, then fetch the raw payload `raw`
(the transport result of `job_results`) and decode it. `decoder` is the
explicit argument; `finalResultDecoder` is the job's bound default
`_final_result_decoder`; `_decoder = decoder or self._final_result_decoder`.
An untruthy raw payload yields `none` without invoking any decoder. -/
def resultAfterWait {α : Type} (js : JobState) (raw : Option String)
    (decoder : Option (String → α)) (finalResultDecoder : String → α) :
    Except JobError (Option α) :=
  let d := decoder.getD finalResultDecoder
  if js.status = "ERROR" then
    let errorMessage := if pyTruthyStr js.reason then js.reason else js.error_message
    if js.reason_code = some 1305 then
      .error (.runtimeJobMaxTimeoutError errorMessage)
    else
      .error (.runtimeJobFailureError
        ("Unable to retrieve job result. " ++ pyStr errorMessage))
  else if js.status = "CANCELLED" then
    .error (.runtimeInvalidStateError
      ("Unable to retrieve result for job " ++ js.job_id ++ ". Job was cancelled."))
  else
    if pyTruthyStr raw then .ok (some (d (raw.getD ""))) else .ok none

/-- Outcome of `wait_for_final_state`: either the loop observed a terminal
status (normal return) or it raised `RuntimeJobTimeoutError`. Each outcome
carries the final job state, the total number of status round-trips made, and
the elapsed wall-clock seconds when the loop exited. -/
inductive WaitOutcome where
  | finished (js : JobState) (rt : Nat) (elapsed : ℚ)
  | timedOut (js : JobState) (rt : Nat) (elapsed : ℚ)
  deriving Repr, DecidableEq

/-- The guard `timeout is not None and elapsed_time >= timeout` of
`wait_for_final_state`. -/
def timeoutExceeded (timeout : Option ℚ) (elapsed : ℚ) : Bool :=
  match timeout with
  | some tmo => decide (tmo ≤ elapsed)
  | none => false

/-- The polling loop of `RuntimeJobV2.wait_for_final_state`, with time
idealized: transport round-trips are instantaneous and each `time.sleep(0.1)`
advances the clock by exactly `1/10` second (the constant poll interval of
the source; there is no backoff). `fuel` bounds the number of loop iterations
so the function is total; `none` means the fuel ran out before the loop
exited, and every theorem below supplies enough fuel. -/
def waitLoop (t : Transport) (timeout : Option ℚ) :
    Nat → JobState → Nat → ℚ → Option WaitOutcome
  | 0, _, _, _ => none
  | fuel + 1, js, rt, elapsed =>
    if js.status ∈ JOB_FINAL_STATES then some (.finished js rt elapsed)
    else if timeoutExceeded timeout elapsed then some (.timedOut js rt elapsed)
    else
      waitLoop t timeout fuel (statusCall t js rt).2.1 (statusCall t js rt).2.2
        (elapsed + 1 / 10)

/-- `RuntimeJobV2.wait_for_final_state`: one initial `status()` call, then the
polling loop starting at elapsed time 0. -/
def waitForFinalState (t : Transport) (timeout : Option ℚ) (fuel : Nat)
    (js : JobState) (rt : Nat) : Option WaitOutcome :=
  waitLoop t timeout fuel (statusCall t js rt).2.1 (statusCall t js rt).2.2 0

/-- The job state and round-trip count after `j` successive `status()` calls
starting from `js` with the round-trip counter at 0: the poll sequence that
`wait_for_final_state` observes. -/
def jobAfter (t : Transport) (js : JobState) : Nat → JobState × Nat
  | 0 => (js, 0)
  | j + 1 => (statusCall t (jobAfter t js j).1 (jobAfter t js j).2).2

/-- A demo transport whose job runs once and then completes. -/
def demoTransportCompleting : Transport := fun n =>
  if n = 0 then ⟨"RUNNING", none, none⟩ else ⟨"COMPLETED", none, none⟩

/-- A demo transport whose job never leaves RUNNING. -/
def demoTransportRunning : Transport := fun _ => ⟨"RUNNING", none, none⟩

/-! ## Backend configuration model (`models/backend_configuration.py`)

The embedding covers the channel lookups of `PulseBackendConfiguration`
(`drive`, `measure`, `acquire`, `control`, `_parse_channels`,
`_get_channel_prefix_index`) and the wire round trip of
`QasmBackendConfiguration` (`from_dict` / `to_dict`). The wire dictionary is
restricted to the required fields plus the optional fields the claims
exercise (`n_registers`, `dt`, `dtm`, and the keyword fields
`qubit_lo_range` / `meas_lo_range` with their GHz/Hz unit conversions);
every modelled field follows the source line by line, unknown keyword fields
pass through verbatim, and wire numbers are binary64 doubles represented by
the exact rationals they denote, with each unit multiplication of the source
rounded through the `roundB64` model below. -/

/-- Typed channel references (`qiskit.pulse.channels`), identified by their
kind and index. -/
inductive Channel where
  | drive (index : Int)
  | measure (index : Int)
  | acquire (index : Int)
  | control (index : Int)
  deriving Repr, DecidableEq

/-- Errors arising in the configuration model: `BackendConfigurationError`
(the library's `ConfigurationError`), and an uncaught Python `KeyError`
(which `_parse_channels` would raise on a channel prefix not in
`channels_dict`, since it indexes the dict before its membership test). -/
inductive ConfigError where
  | backendConfigurationError (msg : String)
  | keyError
  deriving Repr, DecidableEq

/-- `PulseBackendConfiguration.drive`: the drive channel for a qubit, guarded
by `0 <= qubit < self.n_qubits`. -/
def driveChannelFor (n_qubits : Int) (qubit : Int) : Except ConfigError Channel :=
  if 0 ≤ qubit ∧ qubit < n_qubits then .ok (.drive qubit)
  else .error (.backendConfigurationError
    ("Invalid index for " ++ toString qubit ++ "-qubit system."))

/-- `PulseBackendConfiguration.measure`, same guard as `drive`. -/
def measureChannelFor (n_qubits : Int) (qubit : Int) : Except ConfigError Channel :=
  if 0 ≤ qubit ∧ qubit < n_qubits then .ok (.measure qubit)
  else .error (.backendConfigurationError
    ("Invalid index for " ++ toString qubit ++ "-qubit system."))

/-- `PulseBackendConfiguration.acquire`, same guard (the source message here
says "-qubit systems."). -/
def acquireChannelFor (n_qubits : Int) (qubit : Int) : Except ConfigError Channel :=
  if 0 ≤ qubit ∧ qubit < n_qubits then .ok (.acquire qubit)
  else .error (.backendConfigurationError
    ("Invalid index for " ++ toString qubit ++ "-qubit systems."))

/-- A Python dict, possibly a `defaultdict`: `getItem` is `d[k]`, returning
`none` exactly when a plain dict raises `KeyError`; a `defaultdict` instead
manufactures its default value, so it never fails. -/
inductive PyDict (κ β : Type) where
  | plain (entries : List (κ × β))
  | withDefault (entries : List (κ × β)) (default : β)
  deriving Repr, DecidableEq

/-- Python `d[k]` on the two dict flavours. -/
def PyDict.getItem {κ β : Type} [BEq κ] : PyDict κ β → κ → Option β
  | .plain es, k => es.lookup k
  | .withDefault es d, k => some ((es.lookup k).getD d)

/-- Value of a maximal run of decimal digits, as Python `int()` of the
matched group. -/
def digitsToNat (ds : List Char) : Nat :=
  ds.foldl (fun acc c => acc * 10 + (c.toNat - 48)) 0

/-- `PulseBackendConfiguration._get_channel_prefix_index`: Python
`re.match(r"([a-z]+)([0-9]+)", channel)` — a nonempty run of lowercase
letters at the start of the name followed immediately by a nonempty run of
digits; `none` models a failed match (on which the source raises
`BackendConfigurationError`). -/
def getChannelPrefixIndex (channel : String) : Option (String × Int) :=
  let letters := channel.data.takeWhile Char.isLower
  let rest := channel.data.drop letters.length
  let digits := rest.takeWhile Char.isDigit
  if letters.isEmpty ∨ digits.isEmpty then none
  else some (⟨letters⟩, (digitsToNat digits : Int))

/-- Construct the channel of the kind named by a prefix, following
`channels_dict = {d: DriveChannel, u: ControlChannel, m: MeasureChannel,
acquire: AcquireChannel}`; `none` models the `KeyError` a missing key
raises. -/
def channelTypeOf (pref : String) : Option (Int → Channel) :=
  if pref = "d" then some .drive
  else if pref = "u" then some .control
  else if pref = "m" then some .measure
  else if pref = "acquire" then some .acquire
  else none

/-- Append a value to the list held under a key, creating the entry if
absent: the behaviour of `defaultdict(list)[k].append(v)` with Python's
insertion-ordered dicts. -/
def assocAppend {κ β : Type} [DecidableEq κ] :
    List (κ × List β) → κ → β → List (κ × List β)
  | [], k, v => [(k, [v])]
  | (k0, vs) :: rest, k, v =>
    if k0 = k then (k0, vs ++ [v]) :: rest else (k0, vs) :: assocAppend rest k v

/-- Extend the list held under a key with several values, creating the entry
if absent: `defaultdict(list)[k].extend(vs)`. -/
def assocExtend {κ β : Type} [DecidableEq κ] :
    List (κ × List β) → κ → List β → List (κ × List β)
  | [], k, vs => [(k, vs)]
  | (k0, vs0) :: rest, k, vs =>
    if k0 = k then (k0, vs0 ++ vs) :: rest else (k0, vs0) :: assocExtend rest k vs

/-- The three indices `_parse_channels` builds. -/
structure ChannelMaps where
  qubit_channel_map : List (List Int × List Channel)
  channel_qubit_map : List (Channel × List Int)
  control_channels : List (List Int × List Channel)
  deriving Repr, DecidableEq

/-- `PulseBackendConfiguration._parse_channels`: one pass over the raw
channel map (channel name paired with its `operates.qubits` tuple), parsing
each name, classifying by prefix and building the three indices. -/
def parseChannels :
    List (String × List Int) → ChannelMaps → Except ConfigError ChannelMaps
  | [], acc => .ok acc
  | (name, qubits) :: rest, acc =>
    match getChannelPrefixIndex name with
    | none => .error (.backendConfigurationError
        ("Invalid channel name - " ++ name ++ " found."))
    | some (pref, index) =>
      match channelTypeOf pref with
      | none => .error .keyError
      | some mk =>
        parseChannels rest
          { qubit_channel_map := assocAppend acc.qubit_channel_map qubits (mk index),
            channel_qubit_map := assocExtend acc.channel_qubit_map (mk index) qubits,
            control_channels :=
              if pref = "u" then assocAppend acc.control_channels qubits (mk index)
              else acc.control_channels }

/-- The slice of a `PulseBackendConfiguration` instance that the channel
lookups read: `backend_name`, `n_qubits` and the `_control_channels` index
(a plain dict when a channel map was supplied, a `defaultdict(list)`
otherwise). -/
structure PulseChannelsModel where
  backend_name : String
  n_qubits : Int
  control_channels_dict : PyDict (List Int) (List Channel)
  deriving Repr, DecidableEq

/-- The channel-topology part of `PulseBackendConfiguration.__init__`: with a
channel map, parse it and keep the control index as a plain dict; with
`channels=None`, set `self._control_channels = defaultdict(list)`. -/
def pulseInitChannels (backend_name : String) (n_qubits : Int)
    (channels : Option (List (String × List Int))) :
    Except ConfigError PulseChannelsModel :=
  match channels with
  | some chs =>
      (parseChannels chs ⟨[], [], []⟩).map fun maps =>
        { backend_name := backend_name, n_qubits := n_qubits,
          control_channels_dict := .plain maps.control_channels }
  | none =>
      .ok { backend_name := backend_name, n_qubits := n_qubits,
            control_channels_dict := .withDefault [] [] }

/-- `PulseBackendConfiguration.control`: `self._control_channels[qubits]`; a
`KeyError` becomes `BackendConfigurationError` naming the pair. (The
`AttributeError` branch of the source is unreachable here because both
branches of `__init__` set `_control_channels`.) -/
def controlChannelsFor (cfg : PulseChannelsModel) (qubits : List Int) :
    Except ConfigError (List Channel) :=
  match cfg.control_channels_dict.getItem qubits with
  | some chans => .ok chans
  | none => .error (.backendConfigurationError
      ("Could not find the ControlChannel operating on qubits " ++ toString qubits
        ++ " on " ++ toString cfg.n_qubits
        ++ "-qubit system. The ControlChannel information is retrieved from the backend."))

/-! ### IEEE-754 binary64 model

The unit conversions of the configuration model multiply Python floats.
A finite double is an exact rational, and each float operation rounds its
exact result to the nearest double (ties to even); the model below
implements that rounding on `ℚ` for the normal range, which covers every
value in this development (subnormal underflow and overflow do not arise). -/

/-- Floor of log base 2 by repeated halving; the first argument is a lap
bound (`natLog2` passes the number itself, which always suffices). -/
def natLog2Aux : Nat → Nat → Nat
  | 0, _ => 0
  | fuel + 1, n => if n ≤ 1 then 0 else natLog2Aux fuel (n / 2) + 1

/-- Largest `k` with `2 ^ k ≤ n` (and `0` for `n = 0`). -/
def natLog2 (n : Nat) : Nat := natLog2Aux n n

/-- Exact product of two rationals, built with `mkRat` on numerators and
denominators so that concrete values reduce in the kernel (the library
multiplication on `ℚ` is `irreducible`); `mkRat` normalizes, so this is the
rational product. -/
def ratMul (a b : ℚ) : ℚ := mkRat (a.num * b.num) (a.den * b.den)

/-- Exact difference of two rationals through `mkRat` (same reason). -/
def ratSub (a b : ℚ) : ℚ :=
  mkRat (a.num * (b.den : Int) - b.num * (a.den : Int)) (a.den * b.den)

/-- Integer powers of two in `ℚ`, through `mkRat` so that concrete values
reduce in the kernel. -/
def pow2 : Int → ℚ
  | .ofNat n => mkRat (Int.ofNat (2 ^ n)) 1
  | .negSucc n => mkRat 1 (2 ^ (n + 1))

/-- Boolean `a ≤ b` on `ℚ` by cross-multiplication of the (positive)
denominators, so that concrete comparisons reduce in the kernel. -/
def ratLeB (a b : ℚ) : Bool :=
  decide (a.num * (b.den : Int) ≤ b.num * (a.den : Int))

/-- Largest `k : ℤ` with `2 ^ k ≤ q`, for positive `q`. -/
def ratFloorLog2 (q : ℚ) : Int :=
  let k : Int := (natLog2 q.num.natAbs : Int) - (natLog2 q.den : Int)
  if ratLeB (pow2 (k + 1)) q then k + 1
  else if ratLeB (pow2 k) q then k
  else k - 1

/-- Round an exact rational to the nearest IEEE-754 binary64 double (ties to
even), in the normal range: scale into the 53-bit mantissa window
`[2^52, 2^53)`, round the mantissa, and scale back. The comparisons are on
numerators/denominators so that concrete values reduce in the kernel
(`frac < 1/2` is `2·frac.num < frac.den` since denominators are positive).
A Python float literal denotes the `roundB64` image of its decimal value,
and each float operation rounds its exact result through `roundB64`. -/
def roundB64 (q : ℚ) : ℚ :=
  if q.num = 0 then 0
  else
    let a : ℚ := if q.num < 0 then Rat.neg q else q
    let e : Int := ratFloorLog2 a - 52
    let m : ℚ := ratMul a (pow2 (-e))
    let mfl : Int := m.num.fdiv (m.den : Int)
    let frac : ℚ := ratSub m (mkRat mfl 1)
    let mr : Int :=
      if 2 * frac.num < (frac.den : Int) then mfl
      else if (frac.den : Int) < 2 * frac.num then mfl + 1
      else if mfl % 2 = 0 then mfl else mfl + 1
    ratMul (mkRat (if q.num < 0 then -mr else mr) 1) (pow2 e)

/-- Python float multiplication: the exact product, rounded to binary64. -/
def pyFloatMul (x y : ℚ) : ℚ := roundB64 (ratMul x y)

/-- The binary64 double a decimal literal denotes. -/
def pyFloat (q : ℚ) : ℚ := roundB64 q

/-- The double written `1e-9` in the source — not exactly `10⁻⁹`. -/
def float1em9 : ℚ := pyFloat (mkRat 1 1000000000)

/-- The double written `1e9` in the source — an integer below `2^53`, hence
exact. -/
def float1e9 : ℚ := 1000000000

/-- The multiplication `dt * 1e-9` of the constructor (ns to s), rounded to
binary64. -/
def mulNsToS (q : ℚ) : ℚ := pyFloatMul q float1em9

/-- The multiplication `out_dict["dt"] *= 1e9` of `to_dict` (s back to ns),
rounded to binary64. -/
def mulSToNs (q : ℚ) : ℚ := pyFloatMul q float1e9

/-- The entrywise multiplication of an lo-range pair by `1e9` in the
constructor (GHz to Hz), each product rounded to binary64. -/
def loGHzToHz (p : ℚ × ℚ) : ℚ × ℚ :=
  (pyFloatMul p.1 float1e9, pyFloatMul p.2 float1e9)

/-- The entrywise multiplication of an lo-range pair by the double `1e-9` in
`to_dict` (Hz back to GHz), each product rounded to binary64. -/
def loHzToGHz (p : ℚ × ℚ) : ℚ × ℚ :=
  (pyFloatMul p.1 float1em9, pyFloatMul p.2 float1em9)

/-- The composed double-rounded unit conversion a `dt`/`dtm` value undergoes
in one wire round trip. -/
def dtRoundTrip (q : ℚ) : ℚ := mulSToNs (mulNsToS q)

/-- The composed double-rounded conversion a `qubit_lo_range`/`meas_lo_range`
endpoint pair undergoes in one round trip. -/
def loRoundTrip (p : ℚ × ℚ) : ℚ × ℚ := loHzToGHz (loGHzToHz p)

/-- One entry of the wire `gates` list: the dictionary accepted by
`GateConfig.from_dict` and produced by `GateConfig.to_dict`. -/
structure GateConfigDict where
  name : String
  parameters : List String
  qasm_def : String
  coupling_map : Option (List (List Int))
  latency_map : Option (List (List Int))
  conditional : Option Bool
  description : Option String
  deriving Repr, DecidableEq

/-- A `GateConfig` object: the three required attributes plus the optional
attributes that `__init__` sets conditionally (`some` models the attribute
being present). -/
structure GateConfig where
  name : String
  parameters : List String
  qasm_def : String
  coupling_map : Option (List (List Int))
  latency_map : Option (List (List Int))
  conditional : Option Bool
  description : Option String
  deriving Repr, DecidableEq

/-- `GateConfig.__init__` (reached from `from_dict`, which passes the dict
through as keyword arguments): a falsy — `None` or empty — `coupling_map` or
`latency_map` is not stored; `conditional` and `description` are stored
unless `None`. -/
def GateConfig.init (d : GateConfigDict) : GateConfig :=
  { name := d.name, parameters := d.parameters, qasm_def := d.qasm_def,
    coupling_map := if d.coupling_map = some [] then none else d.coupling_map,
    latency_map := if d.latency_map = some [] then none else d.latency_map,
    conditional := d.conditional, description := d.description }

/-- `GateConfig.to_dict`: required keys always, optional keys when the
attribute is present. -/
def GateConfig.to_dict (g : GateConfig) : GateConfigDict :=
  { name := g.name, parameters := g.parameters, qasm_def := g.qasm_def,
    coupling_map := g.coupling_map, latency_map := g.latency_map,
    conditional := g.conditional, description := g.description }

/-- The wire-format configuration dictionary (the modelled fields; see the
section comment). `local_` stands for the wire key `local` (a Lean keyword);
`dynamic_reprate_enabled` is `Option` because the key may be absent from the
wire dict even though the constructor gives it the default `False`;
`dt`/`dtm` are in ns, `qubit_lo_range`/`meas_lo_range` in GHz. -/
structure WireConfig where
  backend_name : String
  backend_version : String
  n_qubits : Int
  basis_gates : List String
  gates : List GateConfigDict
  local_ : Bool
  simulator : Bool
  conditional : Bool
  open_pulse : Bool
  memory : Bool
  max_shots : Int
  coupling_map : List (List Int)
  dynamic_reprate_enabled : Option Bool
  n_registers : Option Int
  dt : Option ℚ
  dtm : Option ℚ
  qubit_lo_range : Option (List (ℚ × ℚ))
  meas_lo_range : Option (List (ℚ × ℚ))
  extra : List (String × String)
  deriving Repr, DecidableEq

/-- A constructed `QasmBackendConfiguration` instance: required attributes
stored as-is, `n_registers` present only when set (and then always `1`),
`dt`/`dtm` converted to seconds, `qubit_lo_range`/`meas_lo_range` converted
to Hz inside `_data`, and the unknown keyword fields of `_data` verbatim. -/
structure QasmConfiguration where
  backend_name : String
  backend_version : String
  n_qubits : Int
  basis_gates : List String
  gates : List GateConfig
  local_ : Bool
  simulator : Bool
  conditional : Bool
  open_pulse : Bool
  memory : Bool
  max_shots : Int
  coupling_map : List (List Int)
  dynamic_reprate_enabled : Bool
  n_registers : Option Int
  dt : Option ℚ
  dtm : Option ℚ
  qubit_lo_range : Option (List (ℚ × ℚ))
  meas_lo_range : Option (List (ℚ × ℚ))
  extra : List (String × String)
  deriving Repr, DecidableEq

/-- `QasmBackendConfiguration.__init__` on the modelled fields, with `gates`
already converted to `GateConfig` objects (as `from_dict` does):
`dynamic_reprate_enabled` defaults to `False`; `if n_registers:
self.n_registers = 1` stores the constant `1` for any truthy value and
nothing for `0`/`None`; `dt`/`dtm` are multiplied by the double `1e-9`
(ns to s) when not `None`; the keyword fields `qubit_lo_range`/
`meas_lo_range` are multiplied entrywise by the double `1e9` (GHz to Hz);
remaining keywords land in `_data` unchanged. Each multiplication is a
Python float multiplication, i.e. rounded to binary64 by `pyFloatMul`. -/
def QasmConfiguration.init
    (backend_name backend_version : String) (n_qubits : Int)
    (basis_gates : List String) (gates : List GateConfig)
    (local_ simulator conditional open_pulse memory : Bool)
    (max_shots : Int) (coupling_map : List (List Int))
    (dynamic_reprate_enabled : Bool) (n_registers : Option Int)
    (dt dtm : Option ℚ) (qubit_lo_range meas_lo_range : Option (List (ℚ × ℚ)))
    (extra : List (String × String)) : QasmConfiguration :=
  { backend_name := backend_name, backend_version := backend_version,
    n_qubits := n_qubits, basis_gates := basis_gates, gates := gates,
    local_ := local_, simulator := simulator, conditional := conditional,
    open_pulse := open_pulse, memory := memory, max_shots := max_shots,
    coupling_map := coupling_map,
    dynamic_reprate_enabled := dynamic_reprate_enabled,
    n_registers := match n_registers with
      | some k => if k ≠ 0 then some 1 else none
      | none => none,
    dt := dt.map mulNsToS,
    dtm := dtm.map mulNsToS,
    qubit_lo_range := qubit_lo_range.map (List.map loGHzToHz),
    meas_lo_range := meas_lo_range.map (List.map loGHzToHz),
    extra := extra }

/-- `QasmBackendConfiguration.from_dict`: convert the `gates` dicts to
`GateConfig` objects, then call the constructor with the remaining keys as
keyword arguments (`dynamic_reprate_enabled` takes its default `False` when
the key is absent). -/
def QasmConfiguration.from_dict (D : WireConfig) : QasmConfiguration :=
  QasmConfiguration.init D.backend_name D.backend_version D.n_qubits
    D.basis_gates (D.gates.map GateConfig.init) D.local_ D.simulator
    D.conditional D.open_pulse D.memory D.max_shots D.coupling_map
    (D.dynamic_reprate_enabled.getD false) D.n_registers D.dt D.dtm
    D.qubit_lo_range D.meas_lo_range D.extra

/-- `QasmBackendConfiguration.to_dict` on the modelled fields: required keys
always (including `dynamic_reprate_enabled`), optional keys when present,
`_data` merged in, then `dt`/`dtm` multiplied by the double `1e9` (s back to
ns) and `qubit_lo_range`/`meas_lo_range` entrywise by the double `1e-9` (Hz
back to GHz), each a binary64-rounded float multiplication. -/
def QasmConfiguration.to_dict (c : QasmConfiguration) : WireConfig :=
  { backend_name := c.backend_name, backend_version := c.backend_version,
    n_qubits := c.n_qubits, basis_gates := c.basis_gates,
    gates := c.gates.map GateConfig.to_dict, local_ := c.local_,
    simulator := c.simulator, conditional := c.conditional,
    open_pulse := c.open_pulse, memory := c.memory, max_shots := c.max_shots,
    coupling_map := c.coupling_map,
    dynamic_reprate_enabled := some c.dynamic_reprate_enabled,
    n_registers := c.n_registers,
    dt := c.dt.map mulSToNs,
    dtm := c.dtm.map mulSToNs,
    qubit_lo_range := c.qubit_lo_range.map (List.map loHzToGHz),
    meas_lo_range := c.meas_lo_range.map (List.map loHzToGHz),
    extra := c.extra }


/-- The double written `0.222` — not exactly `222/1000`. -/
def d0222 : ℚ := pyFloat (mkRat 222 1000)

/-- A demo wire configuration carrying the concrete example values of the
spec as the binary64 doubles a JSON parse would produce: `dt = 0.222` ns
(`d0222`) and `qubit_lo_range = [[4.5, 5.5]]` GHz (both endpoints exact in
binary64). -/
def demoWireBase : WireConfig :=
  { backend_name := "demo", backend_version := "1.0.0", n_qubits := 2,
    basis_gates := ["cx"],
    gates := [⟨"cx", [], "CX a,b;", none, none, none, none⟩],
    local_ := false, simulator := false, conditional := false,
    open_pulse := false, memory := false, max_shots := 1024,
    coupling_map := [[0, 1]],
    dynamic_reprate_enabled := some false, n_registers := none,
    dt := some d0222, dtm := some d0222,
    qubit_lo_range := some [(mkRat 9 2, mkRat 11 2)], meas_lo_range := none,
    extra := [("processor_type", "Falcon")] }

end QiskitRuntime

namespace QiskitRuntime

lemma statusCall_terminal (t : Transport) (js : JobState) (rt : Nat)
    (h : js.status ∈ JOB_FINAL_STATES) :
    statusCall t js rt = (js.status, js, rt) := by
  simp [statusCall, setStatusAndErrorMessage, h]

lemma statusCall_nonterminal_rt (t : Transport) (js : JobState) (rt : Nat)
    (h : js.status ∉ JOB_FINAL_STATES) :
    (statusCall t js rt).2.2 = rt + 1 := by
  simp [statusCall, setStatusAndErrorMessage, h]

lemma jobAfter_nonterminal_down (t : Transport) (js : JobState) (j : Nat)
    (h : (jobAfter t js (j + 1)).1.status ∉ JOB_FINAL_STATES) :
    (jobAfter t js j).1.status ∉ JOB_FINAL_STATES := by
  intro hj
  apply h
  show ((statusCall t (jobAfter t js j).1 (jobAfter t js j).2).2.1).status ∈ _
  rw [statusCall_terminal _ _ _ hj]
  exact hj

lemma jobAfter_rt (t : Transport) (js : JobState) :
    ∀ k : Nat, (∀ j, j < k → (jobAfter t js j).1.status ∉ JOB_FINAL_STATES) →
      (jobAfter t js k).2 = k := by
  intro k
  induction k with
  | zero => intro _; rfl
  | succ n ih =>
    intro h
    have hn := ih (fun j hj => h j (Nat.lt_succ_of_lt hj))
    have hns := h n (Nat.lt_succ_self n)
    show (statusCall t (jobAfter t js n).1 (jobAfter t js n).2).2.2 = n + 1
    rw [statusCall_nonterminal_rt _ _ _ hns, hn]

lemma waitLoop_finished (t : Transport) (js : JobState) (timeout : Option ℚ)
    (k : Nat)
    (hnon : ∀ j, j < k → (jobAfter t js j).1.status ∉ JOB_FINAL_STATES)
    (hfin : (jobAfter t js k).1.status ∈ JOB_FINAL_STATES)
    (hT : ∀ tmo, timeout = some tmo → ∀ i : Nat, i < k → ((i : ℚ) - 1) / 10 < tmo) :
    ∀ d i, 1 ≤ i → i + d = k →
      waitLoop t timeout (d + 1) (jobAfter t js i).1 (jobAfter t js i).2
          (((i : ℚ) - 1) / 10)
        = some (.finished (jobAfter t js k).1 k (((k : ℚ) - 1) / 10)) := by
  intro d
  induction d with
  | zero =>
    intro i _ hik
    have hik' : i = k := by omega
    subst hik'
    rw [waitLoop, if_pos hfin, jobAfter_rt t js i hnon]
  | succ n ih =>
    intro i h1 hik
    have hik' : i < k := by omega
    have hni := hnon i hik'
    have hto : timeoutExceeded timeout (((i : ℚ) - 1) / 10) = false := by
      cases htm : timeout with
      | none => rfl
      | some tmo =>
        have := hT tmo htm i hik'
        simp [timeoutExceeded]
        linarith
    rw [waitLoop, if_neg hni, hto, if_neg (by simp)]
    have helapsed : ((i : ℚ) - 1) / 10 + 1 / 10 = (((i + 1 : Nat) : ℚ) - 1) / 10 := by
      push_cast; ring
    rw [helapsed]
    exact ih (i + 1) (by omega) (by omega)

lemma waitLoop_timedOut (t : Transport) (js : JobState) (T : ℚ) (m : Nat)
    (hm : 1 ≤ m)
    (hnon : ∀ j, j ≤ m → 1 ≤ j → (jobAfter t js j).1.status ∉ JOB_FINAL_STATES)
    (hlt : ∀ j, j < m → 1 ≤ j → ((j : ℚ) - 1) / 10 < T)
    (hge : T ≤ ((m : ℚ) - 1) / 10) :
    ∀ d i, 1 ≤ i → i + d = m →
      waitLoop t (some T) (d + 1) (jobAfter t js i).1 (jobAfter t js i).2
          (((i : ℚ) - 1) / 10)
        = some (.timedOut (jobAfter t js m).1 m (((m : ℚ) - 1) / 10)) := by
  have hnon' : ∀ j, j < m → (jobAfter t js j).1.status ∉ JOB_FINAL_STATES := by
    intro j hj
    rcases Nat.eq_zero_or_pos j with h0 | h1
    · subst h0
      exact jobAfter_nonterminal_down t js 0 (hnon 1 hm (le_refl 1))
    · exact hnon j (le_of_lt hj) h1
  intro d
  induction d with
  | zero =>
    intro i h1 him
    have him' : i = m := by omega
    subst him'
    have hni := hnon i (le_refl i) h1
    have hto : timeoutExceeded (some T) (((i : ℚ) - 1) / 10) = true := by
      simp [timeoutExceeded]; exact hge
    rw [waitLoop, if_neg hni, hto, if_pos rfl, jobAfter_rt t js i hnon']
  | succ n ih =>
    intro i h1 him
    have him' : i < m := by omega
    have hni := hnon' i him'
    have hto : timeoutExceeded (some T) (((i : ℚ) - 1) / 10) = false := by
      have := hlt i him' h1
      simp [timeoutExceeded]
      linarith
    rw [waitLoop, if_neg hni, hto, if_neg (by simp)]
    have helapsed : ((i : ℚ) - 1) / 10 + 1 / 10 = (((i + 1 : Nat) : ℚ) - 1) / 10 := by
      push_cast; ring
    rw [helapsed]
    exact ih (i + 1) (by omega) (by omega)

/-- C1: for every API status response, the status-mapping function of the job
agrees pointwise with the mapping the specification claims: QUEUED, RUNNING,
COMPLETED, FAILED, CANCELLED map to QUEUED, RUNNING, DONE, ERROR, CANCELLED;
any other upper-cased string passes through unmodified; and a mapped CANCELLED
with recorded reason code 1305 becomes ERROR. -/
theorem c1_status_mapping (rc : Option Int) (resp : StatusResponse) :
    statusFromJobResponse rc resp = claimedStatusMap rc (pyUpper resp.status) := by
  have h : ∀ u : String,
      (match API_TO_JOB_STATUS.lookup u with
       | some mapped => if mapped = "CANCELLED" ∧ rc = some 1305 then "ERROR" else mapped
       | none => u) = claimedStatusMap rc u := by
    intro u
    by_cases h1 : u = "QUEUED"
    · subst h1; simp [API_TO_JOB_STATUS, List.lookup, claimedStatusMap]
    · by_cases h2 : u = "RUNNING"
      · subst h2; simp [API_TO_JOB_STATUS, List.lookup, claimedStatusMap]
      · by_cases h3 : u = "COMPLETED"
        · subst h3; simp [API_TO_JOB_STATUS, List.lookup, claimedStatusMap]
        · by_cases h4 : u = "FAILED"
          · subst h4; simp [API_TO_JOB_STATUS, List.lookup, claimedStatusMap]
          · by_cases h5 : u = "CANCELLED"
            · subst h5; simp [API_TO_JOB_STATUS, List.lookup, claimedStatusMap]
            · have e1 : (u == "QUEUED") = false := beq_eq_false_iff_ne.mpr h1
              have e2 : (u == "RUNNING") = false := beq_eq_false_iff_ne.mpr h2
              have e3 : (u == "COMPLETED") = false := beq_eq_false_iff_ne.mpr h3
              have e4 : (u == "FAILED") = false := beq_eq_false_iff_ne.mpr h4
              have e5 : (u == "CANCELLED") = false := beq_eq_false_iff_ne.mpr h5
              simp [API_TO_JOB_STATUS, List.lookup, claimedStatusMap,
                h1, h2, h3, h4, h5, e1, e2, e3, e4, e5]
  exact h (pyUpper resp.status)

/-- C3: once `status()` has returned a terminal value, the next `status()`
call on the same job performs no further transport round-trip and returns the
same terminal value with the state unchanged; a call made while the cached
status is non-terminal performs exactly one round-trip, and a call made while
it is already terminal performs none and changes nothing. -/
theorem c3_terminal_status_cached (t : Transport) (js : JobState) (rt : Nat)
    (s1 : String) (js1 : JobState) (rt1 : Nat)
    (hcall : statusCall t js rt = (s1, js1, rt1))
    (hterm : s1 ∈ JOB_FINAL_STATES) :
    statusCall t js1 rt1 = (s1, js1, rt1)
      ∧ (js.status ∉ JOB_FINAL_STATES → rt1 = rt + 1)
      ∧ (js.status ∈ JOB_FINAL_STATES → rt1 = rt ∧ js1 = js) := by
  by_cases hjs : js.status ∈ JOB_FINAL_STATES
  · simp only [statusCall, setStatusAndErrorMessage, if_pos hjs, Prod.mk.injEq] at hcall
    obtain ⟨e1, e2, e3⟩ := hcall
    subst e1; subst e2; subst e3
    refine ⟨?_, fun h => absurd hjs h, fun _ => ⟨rfl, rfl⟩⟩
    simp [statusCall, setStatusAndErrorMessage, hjs]
  · simp only [statusCall, setStatusAndErrorMessage, if_neg hjs, Prod.mk.injEq] at hcall
    obtain ⟨e1, e2, e3⟩ := hcall
    subst e1; subst e2; subst e3
    refine ⟨?_, fun _ => rfl, fun h => absurd h hjs⟩
    simp only [statusCall, setStatusAndErrorMessage] at hterm ⊢
    simp [if_pos hterm]

/-- Witness for C3: a first `status()` call on a fresh job maps the server
response COMPLETED to the terminal DONE in one round-trip, and the subsequent
`status()` call is a pure read returning the same value. -/
theorem c3_terminal_status_cached_witness :
    statusCall (fun _ => ⟨"COMPLETED", none, none⟩) (initialJob "job1") 0
        = ("DONE", ⟨"job1", "DONE", none, none, none⟩, 1)
      ∧ statusCall (fun _ => ⟨"COMPLETED", none, none⟩)
          ⟨"job1", "DONE", none, none, none⟩ 1
        = ("DONE", ⟨"job1", "DONE", none, none, none⟩, 1) := by
  refine ⟨by decide, ?_⟩
  exact (c3_terminal_status_cached (fun _ => ⟨"COMPLETED", none, none⟩)
    (initialJob "job1") 0 "DONE" ⟨"job1", "DONE", none, none, none⟩ 1
    (by decide) (by decide)).1

/-- C2: after `wait_for_final_state` has completed, `result()` fails with
`RuntimeJobMaxTimeoutError` when the status is ERROR and the recorded reason
code is 1305; with `RuntimeJobFailureError` carrying the server error message
when the status is ERROR and the reason code is not 1305; with
`RuntimeInvalidStateError` when the status is CANCELLED; and raises none of
these when the status is DONE. -/
theorem c2_result_error_dispatch {α : Type} (js : JobState) (raw : Option String)
    (dec : Option (String → α)) (fdec : String → α) :
    (js.status = "ERROR" → js.reason_code = some 1305 →
       resultAfterWait js raw dec fdec = .error (.runtimeJobMaxTimeoutError
         (if pyTruthyStr js.reason then js.reason else js.error_message)))
  ∧ (js.status = "ERROR" → js.reason_code ≠ some 1305 →
       resultAfterWait js raw dec fdec = .error (.runtimeJobFailureError
         ("Unable to retrieve job result. "
           ++ pyStr (if pyTruthyStr js.reason then js.reason else js.error_message))))
  ∧ (js.status = "CANCELLED" →
       resultAfterWait js raw dec fdec = .error (.runtimeInvalidStateError
         ("Unable to retrieve result for job " ++ js.job_id ++ ". Job was cancelled.")))
  ∧ (js.status = "DONE" → ∃ v, resultAfterWait js raw dec fdec = .ok v) := by
  refine ⟨fun hE hrc => ?_, fun hE hrc => ?_, fun hC => ?_, fun hD => ?_⟩
  · simp [resultAfterWait, hE, hrc]
  · simp [resultAfterWait, hE, hrc]
  · simp [resultAfterWait, hC]
  · by_cases hraw : pyTruthyStr raw
    · exact ⟨some ((dec.getD fdec) (raw.getD "")), by simp [resultAfterWait, hD, hraw]⟩
    · exact ⟨none, by simp [resultAfterWait, hD, hraw]⟩

/-- Witness for C2: a job in ERROR with reason code 1305 yields the
max-timeout error; with a different reason code, the failure error carrying
the server message; a CANCELLED job yields the invalid-state error; a DONE
job yields a result. -/
theorem c2_result_error_dispatch_witness :
    resultAfterWait (α := String) ⟨"j", "ERROR", some "boom", none, some 1305⟩
        none none id
      = .error (.runtimeJobMaxTimeoutError (some "boom"))
    ∧ resultAfterWait (α := String) ⟨"j", "ERROR", some "boom", none, some 1⟩
        none none id
      = .error (.runtimeJobFailureError "Unable to retrieve job result. boom")
    ∧ resultAfterWait (α := String) ⟨"j", "CANCELLED", none, none, none⟩
        none none id
      = .error (.runtimeInvalidStateError
          "Unable to retrieve result for job j. Job was cancelled.")
    ∧ resultAfterWait (α := String) ⟨"j", "DONE", none, none, none⟩
        (some "payload") none id = .ok (some "payload") := by
  refine ⟨?_, ?_, ?_, rfl⟩
  · exact (c2_result_error_dispatch _ _ _ _).1 rfl rfl
  · exact (c2_result_error_dispatch _ _ _ _).2.1 rfl (by decide)
  · exact (c2_result_error_dispatch _ _ _ _).2.2.1 rfl

/-- C6: when the wait ended in a state that is neither ERROR nor CANCELLED,
an empty or absent raw payload makes `result()` return the designated
"no result" value `none` whatever decoder is bound or passed (the decoder is
never invoked), while a non-empty payload is decoded by the explicit decoder
when one is given, and by the job's bound default decoder otherwise. -/
theorem c6_result_decoding {α : Type} (js : JobState)
    (hE : js.status ≠ "ERROR") (hC : js.status ≠ "CANCELLED") :
    (∀ (raw : Option String), pyTruthyStr raw = false →
       ∀ (dec : Option (String → α)) (fdec : String → α),
         resultAfterWait js raw dec fdec = .ok none)
  ∧ (∀ s : String, s ≠ "" → ∀ (d fdec : String → α),
       resultAfterWait js (some s) (some d) fdec = .ok (some (d s)))
  ∧ (∀ s : String, s ≠ "" → ∀ (fdec : String → α),
       resultAfterWait js (some s) none fdec = .ok (some (fdec s))) := by
  refine ⟨fun raw hraw dec fdec => ?_, fun s hs d fdec => ?_, fun s hs fdec => ?_⟩
  · simp [resultAfterWait, hE, hC, hraw]
  · simp [resultAfterWait, hE, hC, pyTruthyStr, hs]
  · simp [resultAfterWait, hE, hC, pyTruthyStr, hs]

/-- Witness for C6: on a DONE job, an absent payload gives `none`, an empty
payload gives `none`, and a non-empty payload is decoded by the explicit
decoder when given and by the bound default decoder otherwise. -/
theorem c6_result_decoding_witness :
    resultAfterWait (α := Nat) ⟨"j", "DONE", none, none, none⟩ none
        (some String.length) (fun _ => 99) = .ok none
    ∧ resultAfterWait (α := Nat) ⟨"j", "DONE", none, none, none⟩ (some "")
        (some String.length) (fun _ => 99) = .ok none
    ∧ resultAfterWait (α := Nat) ⟨"j", "DONE", none, none, none⟩ (some "abc")
        (some String.length) (fun _ => 99) = .ok (some 3)
    ∧ resultAfterWait (α := Nat) ⟨"j", "DONE", none, none, none⟩ (some "abc")
        none (fun _ => 99) = .ok (some 99) := by
  refine ⟨?_, ?_, ?_, ?_⟩
  · exact (c6_result_decoding _ (by decide) (by decide)).1 none (by decide) _ _
  · exact (c6_result_decoding _ (by decide) (by decide)).1 (some "") (by decide) _ _
  · exact (c6_result_decoding _ (by decide) (by decide)).2.1 "abc" (by decide) _ _
  · exact (c6_result_decoding _ (by decide) (by decide)).2.2 "abc" (by decide) _

/-- C5: `cancel()` raises `RuntimeInvalidStateError` exactly when the
transport cancel call fails with status code 409, wraps any other transport
failure as `IBMRuntimeError`, and on transport success sets the local status
to CANCELLED, after which `cancelled()` returns true immediately with no
further transport round-trip. -/
theorem c5_cancel (js : JobState) (t : Transport) (rt : Nat) :
    (∀ ex : RequestsApiError, ex.status_code = some 409 →
       cancelJob (.failure ex) js
         = .error (.runtimeInvalidStateError ("Job cannot be cancelled: " ++ ex.message)))
  ∧ (∀ ex : RequestsApiError, ex.status_code ≠ some 409 →
       cancelJob (.failure ex) js
         = .error (.ibmRuntimeError ("Failed to cancel job: " ++ ex.message)))
  ∧ cancelJob .success js = .ok { js with status := "CANCELLED" }
  ∧ (∀ js' : JobState, cancelJob .success js = .ok js' →
       cancelledCall t js' rt = (true, js', rt)) := by
  refine ⟨fun ex h => by simp [cancelJob, h], fun ex h => by simp [cancelJob, h],
    rfl, fun js' h => ?_⟩
  simp only [cancelJob, Except.ok.injEq] at h
  subst h
  simp [cancelledCall, statusCall, setStatusAndErrorMessage, JOB_FINAL_STATES]

/-- C4: `wait_for_final_state` polls `status()` at the constant interval
`0.1` seconds with no backoff (the j-th poll happens at elapsed time
`(j-1)/10`, and the loop exits after `k` polls at elapsed `(k-1)/10`). If the
poll sequence first turns terminal at poll `k` and `k·0.1` is below the
finite timeout `T`, the wait returns normally after exactly `k` round-trips;
the same holds with `timeout = none` for any `k`, with no time limit. If
every poll up to `m` is non-terminal and the elapsed time `(m-1)/10` has
reached `T`, the wait raises `RuntimeJobTimeoutError` (the `timedOut`
outcome) after exactly `m` round-trips. -/
theorem c4_wait_for_final_state (t : Transport) (js0 : JobState) :
    (∀ (k : Nat) (timeout : Option ℚ), 1 ≤ k →
       (∀ j, j < k → (jobAfter t js0 j).1.status ∉ JOB_FINAL_STATES) →
       (jobAfter t js0 k).1.status ∈ JOB_FINAL_STATES →
       (∀ tmo, timeout = some tmo → (k : ℚ) / 10 < tmo) →
       waitForFinalState t timeout k js0 0
         = some (.finished (jobAfter t js0 k).1 k (((k : ℚ) - 1) / 10)))
  ∧ (∀ (m : Nat) (T : ℚ), 1 ≤ m →
       (∀ j, j ≤ m → 1 ≤ j → (jobAfter t js0 j).1.status ∉ JOB_FINAL_STATES) →
       (∀ j, j < m → 1 ≤ j → ((j : ℚ) - 1) / 10 < T) →
       T ≤ ((m : ℚ) - 1) / 10 →
       waitForFinalState t (some T) m js0 0
         = some (.timedOut (jobAfter t js0 m).1 m (((m : ℚ) - 1) / 10))) := by
  constructor
  · intro k timeout hk hnon hfin hT
    have hT' : ∀ tmo, timeout = some tmo → ∀ i : Nat, i < k → ((i : ℚ) - 1) / 10 < tmo := by
      intro tmo htm i hik
      have h1 : ((i : ℚ) - 1) / 10 < (k : ℚ) / 10 := by
        have : (i : ℚ) < (k : ℚ) := by exact_mod_cast hik
        linarith
      exact lt_trans h1 (hT tmo htm)
    have hmain := waitLoop_finished t js0 timeout k hnon hfin hT' (k - 1) 1
      (le_refl 1) (by omega)
    have hfuel : k - 1 + 1 = k := by omega
    rw [hfuel] at hmain
    norm_num at hmain
    exact hmain
  · intro m T hm hnon hlt hge
    have hmain := waitLoop_timedOut t js0 T m hm hnon hlt hge (m - 1) 1
      (le_refl 1) (by omega)
    have hfuel : m - 1 + 1 = m := by omega
    rw [hfuel] at hmain
    norm_num at hmain
    exact hmain

/-- Witness for C4: a job that completes at the second poll finishes a wait
with timeout 1 after two round-trips and elapsed time 1/10, and a job that
never completes times out immediately under timeout 0 after one poll. -/
theorem c4_wait_for_final_state_witness :
    waitForFinalState demoTransportCompleting (some 1) 2 (initialJob "j") 0
      = some (.finished (jobAfter demoTransportCompleting (initialJob "j") 2).1 2
          (((2 : ℚ) - 1) / 10))
    ∧ waitForFinalState demoTransportRunning (some 0) 1 (initialJob "j") 0
      = some (.timedOut (jobAfter demoTransportRunning (initialJob "j") 1).1 1
          (((1 : ℚ) - 1) / 10)) := by
  constructor
  · exact (c4_wait_for_final_state demoTransportCompleting (initialJob "j")).1
      2 (some 1) (by decide) (by decide) (by decide)
      (fun tmo h => by cases h; norm_num)
  · exact (c4_wait_for_final_state demoTransportRunning (initialJob "j")).2
      1 0 (le_refl 1) (by decide) (fun j h1 h2 => by omega) (by norm_num)

/-- Witness for C5: a 409 conflict raises the invalid-state error, a 500
failure is wrapped generically, and after a successful cancel the job reports
cancelled with no additional round-trip. -/
theorem c5_cancel_witness :
    cancelJob (.failure ⟨"conflict", some 409⟩) (initialJob "j")
      = .error (.runtimeInvalidStateError "Job cannot be cancelled: conflict")
    ∧ cancelJob (.failure ⟨"boom", some 500⟩) (initialJob "j")
      = .error (.ibmRuntimeError "Failed to cancel job: boom")
    ∧ cancelledCall (fun _ => ⟨"RUNNING", none, none⟩)
        ⟨"j", "CANCELLED", none, none, none⟩ 3
      = (true, ⟨"j", "CANCELLED", none, none, none⟩, 3) := by
  refine ⟨?_, ?_, ?_⟩
  · exact (c5_cancel (initialJob "j") (fun _ => ⟨"RUNNING", none, none⟩) 3).1 _ rfl
  · exact (c5_cancel (initialJob "j") (fun _ => ⟨"RUNNING", none, none⟩) 3).2.1 _ (by decide)
  · exact (c5_cancel (initialJob "j") (fun _ => ⟨"RUNNING", none, none⟩) 3).2.2.2 _ rfl

lemma gateConfig_round_trip (g : GateConfigDict)
    (h1 : g.coupling_map ≠ some []) (h2 : g.latency_map ≠ some []) :
    (GateConfig.init g).to_dict = g := by
  simp only [GateConfig.init, GateConfig.to_dict, if_neg h1, if_neg h2]

lemma gates_round_trip : ∀ l : List GateConfigDict,
    (∀ g ∈ l, g.coupling_map ≠ some [] ∧ g.latency_map ≠ some []) →
    List.map (fun g => (GateConfig.init g).to_dict) l = l := by
  intro l
  induction l with
  | nil => intro _; rfl
  | cons g rest ih =>
    intro h
    have hg := h g (List.mem_cons_self g rest)
    rw [List.map_cons, gateConfig_round_trip g hg.1 hg.2,
      ih (fun x hx => h x (List.mem_cons_of_mem g hx))]

lemma optQ_float_round_trip (o : Option ℚ) :
    Option.map mulSToNs (Option.map mulNsToS o) = o.map dtRoundTrip := by
  cases o <;> rfl

lemma loRoundTrip_eq (p : ℚ × ℚ) : loHzToGHz (loGHzToHz p) = loRoundTrip p := rfl

lemma optLo_float_round_trip (o : Option (List (ℚ × ℚ))) :
    Option.map (List.map loHzToGHz) (Option.map (List.map loGHzToHz) o)
      = o.map (List.map loRoundTrip) := by
  cases o with
  | none => rw [Option.map_none', Option.map_none', Option.map_none']
  | some l =>
    simp only [Option.map_some', Option.some.injEq]
    induction l with
    | nil => rw [List.map_nil, List.map_nil, List.map_nil]
    | cons p rest ih =>
      rw [List.map_cons, List.map_cons, List.map_cons, ih, loRoundTrip_eq]

/-- C9: the drive, measure and acquire channel lookups succeed exactly when
the qubit index lies in the interval from 0 inclusive to `n_qubits`
exclusive; in particular index `-1` and index `n_qubits` raise
`ConfigurationError`, while index `0` succeeds (returning the typed channel
for qubit 0) whenever `n_qubits ≥ 1`. -/
theorem c9_channel_index_bounds (n qubit : Int) :
    ((∃ c, driveChannelFor n qubit = .ok c) ↔ 0 ≤ qubit ∧ qubit < n)
  ∧ ((∃ c, measureChannelFor n qubit = .ok c) ↔ 0 ≤ qubit ∧ qubit < n)
  ∧ ((∃ c, acquireChannelFor n qubit = .ok c) ↔ 0 ≤ qubit ∧ qubit < n)
  ∧ (∃ e, driveChannelFor n (-1) = .error e)
  ∧ (∃ e, driveChannelFor n n = .error e)
  ∧ (1 ≤ n → driveChannelFor n 0 = .ok (.drive 0)) := by
  have hneg : ¬((0 : Int) ≤ -1 ∧ (-1 : Int) < n) := by omega
  have htop : ¬((0 : Int) ≤ n ∧ n < n) := by omega
  refine ⟨?_, ?_, ?_, ?_, ?_, ?_⟩
  · constructor
    · rintro ⟨c, hc⟩
      by_cases h : 0 ≤ qubit ∧ qubit < n
      · exact h
      · simp [driveChannelFor, h] at hc
    · intro h
      exact ⟨.drive qubit, by simp [driveChannelFor, h]⟩
  · constructor
    · rintro ⟨c, hc⟩
      by_cases h : 0 ≤ qubit ∧ qubit < n
      · exact h
      · simp [measureChannelFor, h] at hc
    · intro h
      exact ⟨.measure qubit, by simp [measureChannelFor, h]⟩
  · constructor
    · rintro ⟨c, hc⟩
      by_cases h : 0 ≤ qubit ∧ qubit < n
      · exact h
      · simp [acquireChannelFor, h] at hc
    · intro h
      exact ⟨.acquire qubit, by simp [acquireChannelFor, h]⟩
  · exact ⟨.backendConfigurationError
      ("Invalid index for " ++ toString (-1 : Int) ++ "-qubit system."),
      by simp [driveChannelFor, hneg]⟩
  · exact ⟨.backendConfigurationError
      ("Invalid index for " ++ toString n ++ "-qubit system."),
      by simp [driveChannelFor, htop]⟩
  · intro h
    simp [driveChannelFor, (by omega : (0 : Int) ≤ 0 ∧ (0 : Int) < n)]

/-- Witness for C9 on a two-qubit configuration: qubit 0 resolves, qubit -1
and qubit 2 raise. -/
theorem c9_channel_index_bounds_witness :
    driveChannelFor 2 0 = .ok (.drive 0)
    ∧ (∃ e, driveChannelFor 2 (-1) = .error e)
    ∧ (∃ e, driveChannelFor 2 2 = .error e) := by
  refine ⟨?_, ?_, ?_⟩
  · exact (c9_channel_index_bounds 2 0).2.2.2.2.2 (by norm_num)
  · exact (c9_channel_index_bounds 2 0).2.2.2.1
  · exact (c9_channel_index_bounds 2 2).2.2.2.2.1

/-- C7 (evaluation of the code at the claimed inputs): with the channel map
of the claim, `control_channels((0,1))` returns the channel derived from
`"u1"`; a pair missing from an existing channel topology raises
`ConfigurationError` naming the pair; but a configuration constructed with
no channel map at all holds `_control_channels = defaultdict(list)`, so
`control_channels((0,1))` silently returns the empty list instead of raising
the `ConfigurationError` promised by the claim and by the method docstring. -/
theorem c7_control_channels_eval :
    pulseInitChannels "demo" 2 (some [("d0", [0]), ("u1", [0, 1])])
      = .ok ⟨"demo", 2, .plain [([0, 1], [.control 1])]⟩
    ∧ controlChannelsFor ⟨"demo", 2, .plain [([0, 1], [.control 1])]⟩ [0, 1]
      = .ok [.control 1]
    ∧ (∃ msg, controlChannelsFor ⟨"demo", 2, .plain [([0, 1], [.control 1])]⟩ [2, 3]
        = .error (.backendConfigurationError msg))
    ∧ pulseInitChannels "demo" 2 none = .ok ⟨"demo", 2, .withDefault [] []⟩
    ∧ controlChannelsFor ⟨"demo", 2, .withDefault [] []⟩ [0, 1] = .ok [] := by
  exact ⟨rfl, rfl, ⟨_, rfl⟩, rfl, rfl⟩

/-- C10: the constructor stores `n_registers = 1` for every truthy (nonzero)
wire value, and `to_dict` therefore emits `1` regardless of the input value;
a `0` or absent wire value leaves the attribute unset and the key absent
from the serialized output. -/
theorem c10_n_registers_normalization (D : WireConfig) :
    (∀ k : Int, k ≠ 0 → D.n_registers = some k →
       (QasmConfiguration.from_dict D).n_registers = some 1
       ∧ (QasmConfiguration.to_dict (QasmConfiguration.from_dict D)).n_registers
           = some 1)
  ∧ ((D.n_registers = none ∨ D.n_registers = some 0) →
       (QasmConfiguration.from_dict D).n_registers = none
       ∧ (QasmConfiguration.to_dict (QasmConfiguration.from_dict D)).n_registers
           = none) := by
  constructor
  · intro k hk hD
    constructor <;>
      simp [QasmConfiguration.from_dict, QasmConfiguration.init,
        QasmConfiguration.to_dict, hD, hk]
  · rintro (hD | hD) <;> constructor <;>
      simp [QasmConfiguration.from_dict, QasmConfiguration.init,
        QasmConfiguration.to_dict, hD]

/-- Witness for C10: wire `n_registers = 5` is stored and re-serialized as
`1`; an absent wire `n_registers` stays absent after the round trip. -/
theorem c10_n_registers_normalization_witness :
    (QasmConfiguration.to_dict (QasmConfiguration.from_dict
        { demoWireBase with n_registers := some 5 })).n_registers = some 1
    ∧ (QasmConfiguration.to_dict
        (QasmConfiguration.from_dict demoWireBase)).n_registers = none := by
  constructor
  · exact ((c10_n_registers_normalization
      { demoWireBase with n_registers := some 5 }).1 5 (by decide) rfl).2
  · exact ((c10_n_registers_normalization demoWireBase).2 (Or.inl rfl)).2

/-- C8 counterexample: the wire round trip is not byte-for-byte on every
understood field — a truthy `n_registers` (here 5) comes back as `1`, a gate
whose `coupling_map` is the falsy empty list loses that key, an absent
`dynamic_reprate_enabled` key materializes as `false` in the output, and the
binary64 rounding of the two unit multiplications changes `dt`: the double
`847.4338895034957` comes back as a different double (`847.4338895034958`). -/
theorem c8_round_trip_counterexample :
    QasmConfiguration.to_dict (QasmConfiguration.from_dict
        { demoWireBase with n_registers := some 5 })
      ≠ { demoWireBase with n_registers := some 5 }
    ∧ QasmConfiguration.to_dict (QasmConfiguration.from_dict
        { demoWireBase with
            gates := [⟨"cx", [], "CX a,b;", some [], none, none, none⟩] })
      ≠ { demoWireBase with
            gates := [⟨"cx", [], "CX a,b;", some [], none, none, none⟩] }
    ∧ QasmConfiguration.to_dict (QasmConfiguration.from_dict
        { demoWireBase with dynamic_reprate_enabled := none })
      ≠ { demoWireBase with dynamic_reprate_enabled := none }
    ∧ (QasmConfiguration.to_dict (QasmConfiguration.from_dict
        { demoWireBase with
            dt := some (pyFloat (mkRat 8474338895034957 10000000000000)) })).dt
      ≠ some (pyFloat (mkRat 8474338895034957 10000000000000))
    ∧ (QasmConfiguration.to_dict (QasmConfiguration.from_dict
        { demoWireBase with
            dt := some (pyFloat (mkRat 8474338895034957 10000000000000)) })).dt
      = some (pyFloat (mkRat 8474338895034958 10000000000000)) := by
  refine ⟨by decide, by decide, by decide, by decide, by decide⟩

/-- C8 amended: for every wire dictionary in which `n_registers` is absent,
the `dynamic_reprate_enabled` key is present, and no gate carries a falsy
empty `coupling_map`/`latency_map` list, `to_dict (from_dict D)` reproduces
every understood non-numeric field of `D` verbatim and passes each
unit-converted numeric field through the composition of the two
binary64-rounded unit multiplications (`dtRoundTrip`, `loRoundTrip`) — which
is not the identity in general, but cancels exactly at the concrete example
values of the claim: the double `0.222` and the exact doubles `4.5` and
`5.5` round trip unchanged. -/
theorem c8_round_trip_amended (D : WireConfig)
    (hreg : D.n_registers = none)
    (hdyn : D.dynamic_reprate_enabled ≠ none)
    (hgates : ∀ g ∈ D.gates, g.coupling_map ≠ some [] ∧ g.latency_map ≠ some []) :
    (QasmConfiguration.to_dict (QasmConfiguration.from_dict D)
      = { D with
            dt := D.dt.map dtRoundTrip
            dtm := D.dtm.map dtRoundTrip
            qubit_lo_range := D.qubit_lo_range.map (List.map loRoundTrip)
            meas_lo_range := D.meas_lo_range.map (List.map loRoundTrip) })
    ∧ dtRoundTrip d0222 = d0222
    ∧ loRoundTrip (mkRat 9 2, mkRat 11 2) = (mkRat 9 2, mkRat 11 2) := by
  refine ⟨?_, by decide, by decide⟩
  obtain ⟨b, hb⟩ := Option.ne_none_iff_exists'.mp hdyn
  cases D with
  | mk bn bv nq bg gs lo si co op me ms cm dyn nreg dt dtm qlr mlr ex =>
    simp only at hreg hb hgates
    subst hreg
    subst hb
    simp only [QasmConfiguration.from_dict, QasmConfiguration.init,
      QasmConfiguration.to_dict, Option.getD_some, List.map_map, Function.comp_def,
      optQ_float_round_trip, optLo_float_round_trip, gates_round_trip gs hgates]

/-- Witness for C8 (amended) at the concrete example of the claim: the demo
wire dictionary, whose `dt`/`dtm` hold the double `0.222` and whose
`qubit_lo_range` holds the exact doubles `4.5`/`5.5`, round trips unchanged
— at these values the binary64 roundings cancel. -/
theorem c8_round_trip_amended_witness :
    QasmConfiguration.to_dict (QasmConfiguration.from_dict demoWireBase)
      = demoWireBase := by
  have h := (c8_round_trip_amended demoWireBase rfl (by decide) (by decide)).1
  rw [h]
  decide

end QiskitRuntime
